import Mathlib

/-!
Shallow embedding of the flight-dynamics core of
`src/three_js_frontend/src/hooks/usePlanePhysics.js`.

Positions, velocities and angles are modelled as real numbers; the
JavaScript float arithmetic is idealised as exact real arithmetic.
Every definition mirrors the corresponding JS function line by line.
-/

namespace PlanePhysics

/-- A 3-vector `[x, y, z]`, mirroring the plain JS arrays used by the hook. -/
structure Vec3 where
  x : ℝ
  y : ℝ
  z : ℝ

attribute [ext] Vec3

/-- Source `addVec3(a, b)`. -/
noncomputable def addVec3 (a b : Vec3) : Vec3 :=
  ⟨a.x + b.x, a.y + b.y, a.z + b.z⟩

/-- Source `scaleVec3(a, s)`. -/
noncomputable def scaleVec3 (a : Vec3) (s : ℝ) : Vec3 :=
  ⟨a.x * s, a.y * s, a.z * s⟩

/-- Source `clamp(val, min, max) = Math.max(min, Math.min(max, val))`. -/
noncomputable def clamp (val lo hi : ℝ) : ℝ :=
  max lo (min hi val)

/-- Source `lengthVec3(a) = Math.sqrt(a0*a0 + a1*a1 + a2*a2)`. -/
noncomputable def lengthVec3 (a : Vec3) : ℝ :=
  Real.sqrt (a.x * a.x + a.y * a.y + a.z * a.z)

/-- Source `normalizeVec3(a)`: `len = lengthVec3(a) || 1` (a zero length is
replaced by 1), then componentwise division. -/
noncomputable def normalizeVec3 (a : Vec3) : Vec3 :=
  let len := if lengthVec3 a = 0 then 1 else lengthVec3 a
  ⟨a.x / len, a.y / len, a.z / len⟩

/-- Euler angles `{pitch, roll, yaw}` in radians. -/
structure Orientation where
  pitch : ℝ
  roll : ℝ
  yaw : ℝ

attribute [ext] Orientation

/-- The forward/right/up frame returned by `getBasisFromEuler`. -/
structure Basis where
  forward : Vec3
  right : Vec3
  up : Vec3

/-- The physics state owned by the hook: position, velocity, orientation and
the running flag. -/
structure PhysicsState where
  position : Vec3
  velocity : Vec3
  orientation : Orientation
  running : Bool

attribute [ext] PhysicsState

/-- The boolean control flags read by the physics core
(`getControlsSnapshot()` fields actually consumed by the hook). -/
structure ControlSnapshot where
  forward : Bool
  back : Bool
  left : Bool
  right : Bool
  yawLeft : Bool
  yawRight : Bool
  rollLeft : Bool
  rollRight : Bool
  boost : Bool
  brake : Bool

/-- The tuning parameters (`DEFAULT_PARAMS` fields). -/
structure Params where
  thrust : ℝ
  boostMultiplier : ℝ
  brakeFactor : ℝ
  drag : ℝ
  damping : ℝ
  gravity : ℝ
  liftFactor : ℝ
  yawRate : ℝ
  pitchRate : ℝ
  rollRate : ℝ
  minSpeed : ℝ
  maxSpeed : ℝ
  groundY : ℝ
  restitution : ℝ

/-- Source `DEFAULT_PARAMS`. -/
noncomputable def DEFAULT_PARAMS : Params :=
  { thrust := 12.0
    boostMultiplier := 1.8
    brakeFactor := 0.6
    drag := 0.2
    damping := 0.02
    gravity := 9.81
    liftFactor := 6.0
    yawRate := 1.6
    pitchRate := 1.2
    rollRate := 1.8
    minSpeed := 2.0
    maxSpeed := 80.0
    groundY := 0.0
    restitution := 0.0 }

/-- Source `DEFAULT_STATE`. -/
noncomputable def DEFAULT_STATE : PhysicsState :=
  { position := ⟨0, 10, 0⟩
    velocity := ⟨0, 0, 0⟩
    orientation := ⟨0, 0, 0⟩
    running := true }

/-- The two sequential wrap tests applied to roll and yaw inside
`clampOrientation`: subtract `2π` when above `π`, then add `2π` when below
`−π`. -/
noncomputable def wrapPi (a : ℝ) : ℝ :=
  let a1 := if a > Real.pi then a - 2 * Real.pi else a
  if a1 < -Real.pi then a1 + 2 * Real.pi else a1

/-- Source `clampOrientation(o)`: pitch is hard-clamped into
`[−π/2 + 0.05, π/2 − 0.05]`, roll and yaw are wrapped. -/
noncomputable def clampOrientation (o : Orientation) : Orientation :=
  ⟨clamp o.pitch (-(Real.pi / 2) + 0.05) (Real.pi / 2 - 0.05),
    wrapPi o.roll, wrapPi o.yaw⟩

/-- Source `getBasisFromEuler({yaw, pitch, roll})`. -/
noncomputable def getBasisFromEuler (o : Orientation) : Basis :=
  let cy := Real.cos o.yaw
  let sy := Real.sin o.yaw
  let cp := Real.cos o.pitch
  let sp := Real.sin o.pitch
  let forward := normalizeVec3 ⟨sy * cp, -sp, cy * cp⟩
  let rightGround : Vec3 := ⟨cy, 0, -sy⟩
  let sr := Real.sin o.roll
  let cr := Real.cos o.roll
  let right := normalizeVec3 ⟨rightGround.x * cr, sr, rightGround.z * cr⟩
  let up := normalizeVec3
    ⟨right.y * forward.z - right.z * forward.y,
      right.z * forward.x - right.x * forward.z,
      right.x * forward.y - right.y * forward.x⟩
  ⟨forward, right, up⟩

/-- Source `applyControlsToOrientation(controls, dt)` as a pure function on
the orientation: accumulate the signed inputs, integrate each axis by
`input * rate * dt`, then clamp. -/
noncomputable def applyControlsToOrientation (p : Params) (c : ControlSnapshot)
    (o : Orientation) (dt : ℝ) : Orientation :=
  let yawInput : ℝ := (if c.yawLeft then -1 else 0) + (if c.yawRight then 1 else 0)
  let rollInput : ℝ := (if c.left then -1 else 0) + (if c.right then 1 else 0)
    + (if c.rollLeft then -1 else 0) + (if c.rollRight then 1 else 0)
  let pitchInput : ℝ := (if c.forward then -1 else 0) + (if c.back then 1 else 0)
  clampOrientation
    ⟨o.pitch + pitchInput * p.pitchRate * dt,
      o.roll + rollInput * p.rollRate * dt,
      o.yaw + yawInput * p.yawRate * dt⟩

/-- Source `computeForces(controls)` as a pure function of the state,
parameters and controls, returning the acceleration vector. -/
noncomputable def computeForces (p : Params) (c : ControlSnapshot)
    (s : PhysicsState) : Vec3 :=
  let b := getBasisFromEuler s.orientation
  let thrustAccel0 := p.thrust
  let thrustAccel1 := if c.boost then thrustAccel0 * p.boostMultiplier else thrustAccel0
  let thrustAccel := if c.brake then thrustAccel1 * p.brakeFactor else thrustAccel1
  let aThrust := scaleVec3 b.forward thrustAccel
  let aDrag := scaleVec3 s.velocity (-p.drag)
  let aDamping := scaleVec3 s.velocity (-p.damping)
  let aGravity : Vec3 := ⟨0, -p.gravity, 0⟩
  let speed := lengthVec3 s.velocity
  let bankLiftFactor := Real.cos s.orientation.roll
  let liftMag := p.liftFactor * speed * 0.05 * bankLiftFactor
  let aLift := scaleVec3 b.up liftMag
  let ax := aThrust.x + aDrag.x + aDamping.x + aGravity.x + aLift.x
  let ay := aThrust.y + aDrag.y + aDamping.y + aGravity.y + aLift.y
  let az := aThrust.z + aDrag.z + aDamping.z + aGravity.z + aLift.z
  let bx := if c.brake then ax + -s.velocity.x * 0.8 else ax
  let by' := if c.brake then ay + -s.velocity.y * 0.8 else ay
  let bz := if c.brake then az + -s.velocity.z * 0.8 else az
  ⟨bx, by', bz⟩

/-- Source `integrate(state, accel, dt)`: velocity is updated first, and the
position update then uses the already-updated velocity. -/
noncomputable def integrate (s : PhysicsState) (accel : Vec3) (dt : ℝ) :
    PhysicsState :=
  let v := addVec3 s.velocity (scaleVec3 accel dt)
  { s with velocity := v, position := addVec3 s.position (scaleVec3 v dt) }

/-- Source `handleGroundCollision()`. -/
noncomputable def handleGroundCollision (p : Params) (s : PhysicsState) :
    PhysicsState :=
  if s.position.y < p.groundY then
    { s with
      position := ⟨s.position.x, p.groundY, s.position.z⟩
      velocity :=
        ⟨s.velocity.x * 0.98,
          if s.velocity.y < 0 then -s.velocity.y * p.restitution else s.velocity.y,
          s.velocity.z * 0.98⟩ }
  else s

/-- Source `clampSpeed()`. -/
noncomputable def clampSpeed (p : Params) (s : PhysicsState) : PhysicsState :=
  let spd := lengthVec3 s.velocity
  if spd > 0 then
    let dir := scaleVec3 s.velocity (1 / spd)
    let target := clamp spd p.minSpeed p.maxSpeed
    { s with velocity := scaleVec3 dir target }
  else s

/-- The argument accepted by `update`: a number, an object that may carry a
numeric `delta` field, or anything else. -/
inductive DeltaArg where
  | num (d : ℝ)
  | obj (delta : Option ℝ)
  | invalid

/-- The `dt` selected by the head of `update` before capping: the number
itself, the object's numeric `delta`, or the `0.016` fallback. -/
noncomputable def rawDt : DeltaArg → ℝ
  | .num d => d
  | .obj (some d) => d
  | .obj none => 0.016
  | .invalid => 0.016

/-- The `dt` actually integrated: `Math.min(dt, 0.05)` applied to `rawDt`. -/
noncomputable def effectiveDt (arg : DeltaArg) : ℝ :=
  min (rawDt arg) 0.05

/-- The body of `update` up to and including `clampSpeed()` (everything
before the ground-collision step), for a given effective `dt`. -/
noncomputable def tick (p : Params) (c : ControlSnapshot) (s : PhysicsState)
    (dt : ℝ) : PhysicsState :=
  let s1 := { s with orientation := applyControlsToOrientation p c s.orientation dt }
  let s2 := integrate s1 (computeForces p c s1) dt
  clampSpeed p s2

/-- Source `update(deltaOrObj)`: no-op while stopped, otherwise orientation
update, force computation, integration, speed clamp and ground collision. -/
noncomputable def update (p : Params) (c : ControlSnapshot) (s : PhysicsState)
    (arg : DeltaArg) : PhysicsState :=
  if s.running = false then s
  else handleGroundCollision p (tick p c s (effectiveDt arg))

/-- Source `start()`. -/
noncomputable def start (s : PhysicsState) : PhysicsState :=
  { s with running := true }

/-- Source `stop()`. -/
noncomputable def stop (s : PhysicsState) : PhysicsState :=
  { s with running := false }

/-- The optional fields of the `reset(opts)` argument; `none` models an
absent (or nullish) field, which the `??` operator replaces by the default. -/
structure ResetOpts where
  position : Option Vec3
  velocity : Option Vec3
  pitch : Option ℝ
  roll : Option ℝ
  yaw : Option ℝ
  running : Option Bool

/-- Source `reset(opts)`: builds a wholly new state from the fixed defaults
and the supplied overrides; the prior state is not consulted. -/
noncomputable def reset (opts : ResetOpts) : PhysicsState :=
  { position := opts.position.getD ⟨0, 10, 0⟩
    velocity := opts.velocity.getD ⟨0, 0, 0⟩
    orientation := ⟨opts.pitch.getD 0, opts.roll.getD 0, opts.yaw.getD 0⟩
    running := opts.running.getD true }

/-- A sequence of frames: fold `update` over a list of per-frame control
snapshots and dt arguments. -/
noncomputable def runTicks (p : Params) (ticks : List (ControlSnapshot × DeltaArg))
    (s : PhysicsState) : PhysicsState :=
  ticks.foldl (fun st t => update p t.1 st t.2) s

/-- The snapshot with every control released. -/
def noControls : ControlSnapshot :=
  ⟨false, false, false, false, false, false, false, false, false, false⟩

/-- Only the A key (roll left input) held. -/
def leftControls : ControlSnapshot :=
  ⟨false, false, true, false, false, false, false, false, false, false⟩

/-- Only the S key (nose up input) held. -/
def backControls : ControlSnapshot :=
  ⟨false, true, false, false, false, false, false, false, false, false⟩

/-- Both roll-left inputs held (A together with the spare roll-left key). -/
def leftRollControls : ControlSnapshot :=
  ⟨false, false, true, false, false, false, true, false, false, false⟩

section Helpers

lemma lengthVec3_nonneg (a : Vec3) : 0 ≤ lengthVec3 a :=
  Real.sqrt_nonneg _

lemma lengthVec3_eq_zero_iff (a : Vec3) : lengthVec3 a = 0 ↔ a = ⟨0, 0, 0⟩ := by
  unfold lengthVec3
  constructor
  · intro h
    have hsum : a.x * a.x + a.y * a.y + a.z * a.z = 0 := by
      have h0 := Real.sqrt_eq_zero'.mp h
      nlinarith [mul_self_nonneg a.x, mul_self_nonneg a.y, mul_self_nonneg a.z]
    have hx : a.x = 0 := by nlinarith [mul_self_nonneg a.x, mul_self_nonneg a.y, mul_self_nonneg a.z]
    have hy : a.y = 0 := by nlinarith [mul_self_nonneg a.x, mul_self_nonneg a.y, mul_self_nonneg a.z]
    have hz : a.z = 0 := by nlinarith [mul_self_nonneg a.x, mul_self_nonneg a.y, mul_self_nonneg a.z]
    ext <;> simp [hx, hy, hz]
  · intro h
    subst h
    simp [Real.sqrt_eq_zero']

lemma lengthVec3_pos (a : Vec3) (h : a ≠ ⟨0, 0, 0⟩) : 0 < lengthVec3 a := by
  rcases lt_or_eq_of_le (lengthVec3_nonneg a) with hlt | heq
  · exact hlt
  · exact absurd ((lengthVec3_eq_zero_iff a).mp heq.symm) h

lemma lengthVec3_scale (a : Vec3) (t : ℝ) :
    lengthVec3 (scaleVec3 a t) = |t| * lengthVec3 a := by
  unfold lengthVec3 scaleVec3
  have h : a.x * t * (a.x * t) + a.y * t * (a.y * t) + a.z * t * (a.z * t)
      = t ^ 2 * (a.x * a.x + a.y * a.y + a.z * a.z) := by ring
  rw [h, Real.sqrt_mul (sq_nonneg t), Real.sqrt_sq_eq_abs]

lemma clamp_mem (v lo hi : ℝ) (h : lo ≤ hi) :
    lo ≤ clamp v lo hi ∧ clamp v lo hi ≤ hi := by
  unfold clamp
  constructor
  · exact le_max_left _ _
  · exact max_le h (min_le_left _ _)

lemma clamp_of_mem (v lo hi : ℝ) (h1 : lo ≤ v) (h2 : v ≤ hi) :
    clamp v lo hi = v := by
  unfold clamp
  rw [min_eq_right h2, max_eq_right h1]

lemma clamp_of_le (v lo hi : ℝ) (h1 : lo ≤ hi) (h2 : hi ≤ v) :
    clamp v lo hi = hi := by
  unfold clamp
  rw [min_eq_left h2, max_eq_right h1]

lemma clamp_of_ge (v lo hi : ℝ) (h1 : v ≤ lo) (h2 : v ≤ hi) :
    clamp v lo hi = lo := by
  unfold clamp
  rw [min_eq_right h2, max_eq_left h1]

lemma pi_gt : (3.141592 : ℝ) < Real.pi := by
  have := Real.pi_gt_3141592
  linarith

lemma pi_lt : Real.pi < (3.141593 : ℝ) := by
  have := Real.pi_lt_3141593
  linarith

lemma wrapPi_mem (a : ℝ) (h1 : -Real.pi - 0.2 ≤ a) (h2 : a ≤ Real.pi + 0.2) :
    -Real.pi ≤ wrapPi a ∧ wrapPi a ≤ Real.pi := by
  have hp := pi_gt
  unfold wrapPi
  by_cases hgt : a > Real.pi
  · rw [if_pos hgt, if_neg (not_lt.mpr (by linarith))]
    constructor <;> linarith
  · rw [if_neg hgt]
    by_cases hlt : a < -Real.pi
    · rw [if_pos hlt]
      constructor <;> linarith
    · rw [if_neg hlt]
      constructor <;> linarith

lemma wrapPi_zero : wrapPi 0 = 0 := by
  have hp := pi_gt
  unfold wrapPi
  have h1 : ¬((0 : ℝ) > Real.pi) := not_lt.mpr (by linarith)
  simp only [if_neg h1]
  rw [if_neg (not_lt.mpr (by linarith))]

lemma clampOrientation_zero : clampOrientation ⟨0, 0, 0⟩ = ⟨0, 0, 0⟩ := by
  have hp := pi_gt
  unfold clampOrientation
  rw [wrapPi_zero]
  have : clamp 0 (-(Real.pi / 2) + 0.05) (Real.pi / 2 - 0.05) = 0 :=
    clamp_of_mem _ _ _ (by linarith) (by linarith)
  rw [this]

lemma integrate_orientation (s : PhysicsState) (a : Vec3) (dt : ℝ) :
    (integrate s a dt).orientation = s.orientation := rfl

lemma integrate_running (s : PhysicsState) (a : Vec3) (dt : ℝ) :
    (integrate s a dt).running = s.running := rfl

lemma clampSpeed_orientation (p : Params) (s : PhysicsState) :
    (clampSpeed p s).orientation = s.orientation := by
  unfold clampSpeed
  dsimp only
  split_ifs <;> rfl

lemma clampSpeed_position (p : Params) (s : PhysicsState) :
    (clampSpeed p s).position = s.position := by
  unfold clampSpeed
  dsimp only
  split_ifs <;> rfl

lemma clampSpeed_running (p : Params) (s : PhysicsState) :
    (clampSpeed p s).running = s.running := by
  unfold clampSpeed
  dsimp only
  split_ifs <;> rfl

lemma handleGroundCollision_orientation (p : Params) (s : PhysicsState) :
    (handleGroundCollision p s).orientation = s.orientation := by
  unfold handleGroundCollision
  split_ifs <;> rfl

lemma handleGroundCollision_running (p : Params) (s : PhysicsState) :
    (handleGroundCollision p s).running = s.running := by
  unfold handleGroundCollision
  split_ifs <;> rfl

lemma tick_orientation (p : Params) (c : ControlSnapshot) (s : PhysicsState) (dt : ℝ) :
    (tick p c s dt).orientation = applyControlsToOrientation p c s.orientation dt := by
  unfold tick
  rw [clampSpeed_orientation, integrate_orientation]

lemma tick_running (p : Params) (c : ControlSnapshot) (s : PhysicsState) (dt : ℝ) :
    (tick p c s dt).running = s.running := by
  unfold tick
  rw [clampSpeed_running, integrate_running]

lemma update_running (p : Params) (c : ControlSnapshot) (s : PhysicsState)
    (arg : DeltaArg) : (update p c s arg).running = s.running := by
  unfold update
  split_ifs with h
  · rfl
  · rw [handleGroundCollision_running, tick_running]

lemma update_of_running (p : Params) (c : ControlSnapshot) (s : PhysicsState)
    (arg : DeltaArg) (h : s.running = true) :
    update p c s arg = handleGroundCollision p (tick p c s (effectiveDt arg)) := by
  unfold update
  rw [if_neg (by simp [h])]

lemma update_orientation (p : Params) (c : ControlSnapshot) (s : PhysicsState)
    (arg : DeltaArg) (h : s.running = true) :
    (update p c s arg).orientation
      = applyControlsToOrientation p c s.orientation (effectiveDt arg) := by
  rw [update_of_running p c s arg h, handleGroundCollision_orientation, tick_orientation]

lemma clampSpeed_of_pos (p : Params) (s : PhysicsState)
    (h : 0 < lengthVec3 s.velocity) :
    clampSpeed p s
      = { s with
          velocity := scaleVec3 s.velocity
            (clamp (lengthVec3 s.velocity) p.minSpeed p.maxSpeed
              / lengthVec3 s.velocity) } := by
  unfold clampSpeed
  dsimp only
  rw [if_pos h]
  have hv : scaleVec3 (scaleVec3 s.velocity (1 / lengthVec3 s.velocity))
      (clamp (lengthVec3 s.velocity) p.minSpeed p.maxSpeed)
      = scaleVec3 s.velocity
        (clamp (lengthVec3 s.velocity) p.minSpeed p.maxSpeed / lengthVec3 s.velocity) := by
    unfold scaleVec3
    ext <;> dsimp only <;> ring
  rw [hv]

lemma clampSpeed_of_zero (p : Params) (s : PhysicsState)
    (h : lengthVec3 s.velocity = 0) : clampSpeed p s = s := by
  unfold clampSpeed
  dsimp only
  rw [if_neg (by rw [h]; exact lt_irrefl 0)]

lemma clampSpeed_length (p : Params) (s : PhysicsState)
    (hmin : 0 < p.minSpeed) (hmm : p.minSpeed ≤ p.maxSpeed)
    (h : 0 < lengthVec3 s.velocity) :
    lengthVec3 (clampSpeed p s).velocity
      = clamp (lengthVec3 s.velocity) p.minSpeed p.maxSpeed := by
  rw [clampSpeed_of_pos p s h]
  dsimp only
  rw [lengthVec3_scale]
  have hc := clamp_mem (lengthVec3 s.velocity) p.minSpeed p.maxSpeed hmm
  have hpos : 0 < clamp (lengthVec3 s.velocity) p.minSpeed p.maxSpeed :=
    lt_of_lt_of_le hmin hc.1
  rw [abs_of_pos (div_pos hpos h), div_mul_cancel₀ _ (ne_of_gt h)]

lemma integrate_zero_dt (s : PhysicsState) (a : Vec3) : integrate s a 0 = s := by
  unfold integrate addVec3 scaleVec3
  dsimp only
  ext <;> dsimp only <;> ring

lemma basis_zero :
    getBasisFromEuler ⟨0, 0, 0⟩ = ⟨⟨0, 0, 1⟩, ⟨1, 0, 0⟩, ⟨0, -1, 0⟩⟩ := by
  unfold getBasisFromEuler normalizeVec3
  norm_num [lengthVec3, Real.cos_zero, Real.sin_zero, Real.sqrt_one]

lemma computeForces_rest (p : Params) (s : PhysicsState)
    (ho : s.orientation = ⟨0, 0, 0⟩) (hv : s.velocity = ⟨0, 0, 0⟩) :
    computeForces p noControls s = ⟨0, -p.gravity, p.thrust⟩ := by
  unfold computeForces
  rw [ho, hv, basis_zero]
  norm_num [noControls, scaleVec3, lengthVec3, Real.sqrt_zero, Real.cos_zero]

end Helpers

/-- A state resting below the ground plane, used to exercise the collision
branch. -/
noncomputable def belowGroundState : PhysicsState :=
  ⟨⟨0, -1, 0⟩, ⟨1, -2, 3⟩, ⟨0, 0, 0⟩, true⟩

/-- A stopped state with arbitrary nonzero fields. -/
noncomputable def stoppedState : PhysicsState :=
  ⟨⟨1, 2, 3⟩, ⟨4, 5, 6⟩, ⟨0.1, 0.2, 0.3⟩, false⟩

/-- The reset argument with no fields supplied. -/
def noOverrides : ResetOpts :=
  ⟨none, none, none, none, none, none⟩

/-- Claim C5: the integration step is semi-implicit Euler: the velocity is
updated to `velocity + accel * dt` first, and the position is advanced with
that already-updated velocity; the last conjunct separates this from the
explicit-Euler update that would use the pre-step velocity. -/
theorem integrate_semi_implicit_euler :
    (∀ (s : PhysicsState) (a : Vec3) (dt : ℝ),
      (integrate s a dt).velocity = addVec3 s.velocity (scaleVec3 a dt) ∧
      (integrate s a dt).position
        = addVec3 s.position (scaleVec3 (addVec3 s.velocity (scaleVec3 a dt)) dt)) ∧
    (integrate DEFAULT_STATE ⟨1, 0, 0⟩ 1).position
      ≠ addVec3 DEFAULT_STATE.position (scaleVec3 DEFAULT_STATE.velocity 1) := by
  constructor
  · intro s a dt
    exact ⟨rfl, rfl⟩
  · unfold integrate addVec3 scaleVec3 DEFAULT_STATE
    simp only [Vec3.mk.injEq]
    norm_num

/-- Claim C6: the force model output is exactly the sum of the thrust,
drag, damping, gravity and lift terms, plus the extra brake drag exactly
when the brake is held; determinism holds because `computeForces` is a
pure function of the listed inputs. -/
theorem computeForces_spec (p : Params) (c : ControlSnapshot) (s : PhysicsState) :
    computeForces p c s
      = addVec3 (addVec3 (addVec3 (addVec3 (addVec3
          (scaleVec3 (getBasisFromEuler s.orientation).forward
            (p.thrust * (if c.boost then p.boostMultiplier else 1)
              * (if c.brake then p.brakeFactor else 1)))
          (scaleVec3 s.velocity (-p.drag)))
          (scaleVec3 s.velocity (-p.damping)))
          ⟨0, -p.gravity, 0⟩)
          (scaleVec3 (getBasisFromEuler s.orientation).up
            (p.liftFactor * lengthVec3 s.velocity * 0.05
              * Real.cos s.orientation.roll)))
          (if c.brake then scaleVec3 s.velocity (-0.8) else ⟨0, 0, 0⟩) := by
  rcases c with ⟨cf, cb, cl, cr, cyl, cyr, crl, crr, cboost, cbrake⟩
  unfold computeForces addVec3 scaleVec3
  cases cboost <;> cases cbrake <;>
    simp only [Bool.false_eq_true, if_true, if_false] <;>
    ext <;> dsimp only <;> ring

/-- Claim C7: when the integrated vertical position is below `groundY`, the
collision step snaps it to `groundY` exactly, reflects a negative vertical
velocity by the restitution factor (exactly 0 when restitution is 0), and
multiplies both horizontal velocity components by the ground friction
factor 0.98, which is strictly less than 1. -/
theorem handleGroundCollision_spec (p : Params) (s : PhysicsState)
    (h : s.position.y < p.groundY) :
    (handleGroundCollision p s).position.y = p.groundY ∧
    (s.velocity.y < 0 →
      (handleGroundCollision p s).velocity.y = -s.velocity.y * p.restitution) ∧
    (s.velocity.y < 0 → p.restitution = 0 →
      (handleGroundCollision p s).velocity.y = 0) ∧
    (handleGroundCollision p s).velocity.x = s.velocity.x * 0.98 ∧
    (handleGroundCollision p s).velocity.z = s.velocity.z * 0.98 ∧
    (0.98 : ℝ) < 1 := by
  unfold handleGroundCollision
  rw [if_pos h]
  refine ⟨rfl, ?_, ?_, rfl, rfl, by norm_num⟩
  · intro hv
    dsimp only
    rw [if_pos hv]
  · intro hv hr
    dsimp only
    rw [if_pos hv, hr, mul_zero]

/-- Witness for C7 at a concrete below-ground state with the default
parameters. -/
theorem handleGroundCollision_spec_witness :
    belowGroundState.position.y < DEFAULT_PARAMS.groundY ∧
    ((handleGroundCollision DEFAULT_PARAMS belowGroundState).position.y
        = DEFAULT_PARAMS.groundY ∧
      (belowGroundState.velocity.y < 0 →
        (handleGroundCollision DEFAULT_PARAMS belowGroundState).velocity.y
          = -belowGroundState.velocity.y * DEFAULT_PARAMS.restitution) ∧
      (belowGroundState.velocity.y < 0 → DEFAULT_PARAMS.restitution = 0 →
        (handleGroundCollision DEFAULT_PARAMS belowGroundState).velocity.y = 0) ∧
      (handleGroundCollision DEFAULT_PARAMS belowGroundState).velocity.x
        = belowGroundState.velocity.x * 0.98 ∧
      (handleGroundCollision DEFAULT_PARAMS belowGroundState).velocity.z
        = belowGroundState.velocity.z * 0.98 ∧
      (0.98 : ℝ) < 1) :=
  ⟨by norm_num [belowGroundState, DEFAULT_PARAMS],
    handleGroundCollision_spec DEFAULT_PARAMS belowGroundState
      (by norm_num [belowGroundState, DEFAULT_PARAMS])⟩

/-- Claim C9: while stopped, `update` is a complete no-op: the state is
returned unchanged for every argument shape. -/
theorem update_stopped (p : Params) (c : ControlSnapshot) (s : PhysicsState)
    (arg : DeltaArg) (h : s.running = false) : update p c s arg = s := by
  unfold update
  rw [if_pos h]

/-- Witness for C9 at a concrete stopped state and a malformed argument. -/
theorem update_stopped_witness :
    stoppedState.running = false ∧
    update DEFAULT_PARAMS noControls stoppedState .invalid = stoppedState :=
  ⟨rfl, update_stopped DEFAULT_PARAMS noControls stoppedState .invalid rfl⟩

/-- Claim C2 counterexample: starting from a stopped prior state, `reset`
with no overrides yields `running = true`, not the pre-reset value `false`;
`reset` falls back to the fixed default, never to the prior state. -/
theorem reset_running_counterexample :
    noOverrides.running = none ∧
    (stop DEFAULT_STATE).running = false ∧
    (reset noOverrides).running = true ∧
    (reset noOverrides).running ≠ (stop DEFAULT_STATE).running := by
  refine ⟨rfl, rfl, rfl, ?_⟩
  simp [reset, stop, noOverrides, DEFAULT_STATE]

/-- Claim C2 amended: `reset(overrides)` sets the running flag to the
override when one is supplied and to the fixed default `true` otherwise;
the pre-reset value is never consulted. -/
theorem reset_running_amended (opts : ResetOpts) :
    (reset opts).running = opts.running.getD true := rfl

/-- Claim C3 counterexample: a negative numeric dt is not clamped into
`[0, 0.05]`; the effective dt for the argument `-1` is `-1` itself. -/
theorem effectiveDt_counterexample :
    effectiveDt (.num (-1)) = -1 ∧ ¬(0 ≤ effectiveDt (.num (-1))) := by
  have h : effectiveDt (.num (-1)) = -1 := by
    unfold effectiveDt rawDt
    rw [min_eq_left (by norm_num)]
  rw [h]
  norm_num

/-- Claim C3 amended: the effective dt is capped above at 0.05 but not
clamped below (a numeric dt at most 0.05, including a negative one, is
used as-is), and when the argument carries no number the fixed fallback
0.016 is substituted. -/
theorem effectiveDt_policy (d : ℝ) (h : d ≤ 0.05) :
    effectiveDt (.num d) = d ∧
    effectiveDt (.obj (some d)) = d ∧
    effectiveDt (.obj none) = 0.016 ∧
    effectiveDt .invalid = 0.016 ∧
    ∀ e : ℝ, effectiveDt (.num e) ≤ 0.05 := by
  refine ⟨?_, ?_, ?_, ?_, ?_⟩
  · unfold effectiveDt rawDt
    exact min_eq_left h
  · unfold effectiveDt rawDt
    exact min_eq_left h
  · unfold effectiveDt rawDt
    exact min_eq_left (by norm_num)
  · unfold effectiveDt rawDt
    exact min_eq_left (by norm_num)
  · intro e
    exact min_le_right _ _

/-- Witness for the amended C3 at the concrete input `-1`, exhibiting the
negative passthrough. -/
theorem effectiveDt_policy_witness :
    (-1 : ℝ) ≤ 0.05 ∧
    (effectiveDt (.num (-1)) = -1 ∧
      effectiveDt (.obj (some (-1))) = -1 ∧
      effectiveDt (.obj none) = 0.016 ∧
      effectiveDt .invalid = 0.016 ∧
      ∀ e : ℝ, effectiveDt (.num e) ≤ 0.05) :=
  ⟨by norm_num, effectiveDt_policy (-1) (by norm_num)⟩

section SpeedClaims

/-- The norm of the velocity produced by `clampSpeed` lies in
`[minSpeed, maxSpeed]` whenever it is nonzero. -/
lemma clampSpeed_range (p : Params) (s : PhysicsState)
    (hmin : 0 < p.minSpeed) (hmm : p.minSpeed ≤ p.maxSpeed)
    (hv : (clampSpeed p s).velocity ≠ ⟨0, 0, 0⟩) :
    p.minSpeed ≤ lengthVec3 (clampSpeed p s).velocity ∧
    lengthVec3 (clampSpeed p s).velocity ≤ p.maxSpeed := by
  rcases lt_or_eq_of_le (lengthVec3_nonneg s.velocity) with h | h
  · have hlen := clampSpeed_length p s hmin hmm h
    rw [hlen]
    exact clamp_mem (lengthVec3 s.velocity) p.minSpeed p.maxSpeed hmm
  · exfalso
    apply hv
    rw [clampSpeed_of_zero p s h.symm]
    exact (lengthVec3_eq_zero_iff s.velocity).mp h.symm

/-- Claim C8: with a positive minimum speed bound below the maximum, a
nonzero velocity is rescaled by a positive factor (direction preserved) to
the clamped norm, which then lies in `[minSpeed, maxSpeed]`; a zero
velocity is left untouched. -/
theorem clampSpeed_spec (p : Params) (s : PhysicsState)
    (hmin : 0 < p.minSpeed) (hmm : p.minSpeed ≤ p.maxSpeed) :
    (0 < lengthVec3 s.velocity →
      (∃ t : ℝ, 0 < t ∧ (clampSpeed p s).velocity = scaleVec3 s.velocity t) ∧
      lengthVec3 (clampSpeed p s).velocity
        = clamp (lengthVec3 s.velocity) p.minSpeed p.maxSpeed ∧
      p.minSpeed ≤ lengthVec3 (clampSpeed p s).velocity ∧
      lengthVec3 (clampSpeed p s).velocity ≤ p.maxSpeed) ∧
    (lengthVec3 s.velocity = 0 → clampSpeed p s = s) := by
  constructor
  · intro h
    have hlen := clampSpeed_length p s hmin hmm h
    have hc := clamp_mem (lengthVec3 s.velocity) p.minSpeed p.maxSpeed hmm
    refine ⟨⟨clamp (lengthVec3 s.velocity) p.minSpeed p.maxSpeed
        / lengthVec3 s.velocity, ?_, ?_⟩, hlen, ?_, ?_⟩
    · exact div_pos (lt_of_lt_of_le hmin hc.1) h
    · rw [clampSpeed_of_pos p s h]
    · rw [hlen]
      exact hc.1
    · rw [hlen]
      exact hc.2
  · exact clampSpeed_of_zero p s

/-- A state with a small nonzero velocity of norm exactly 5 before the
clamp. -/
noncomputable def speedState : PhysicsState :=
  ⟨⟨0, 10, 0⟩, ⟨3, 4, 0⟩, ⟨0, 0, 0⟩, true⟩

/-- Witness for C8 at concrete default parameters and a concrete state. -/
theorem clampSpeed_spec_witness :
    0 < DEFAULT_PARAMS.minSpeed ∧
    DEFAULT_PARAMS.minSpeed ≤ DEFAULT_PARAMS.maxSpeed ∧
    ((0 < lengthVec3 speedState.velocity →
      (∃ t : ℝ, 0 < t ∧
        (clampSpeed DEFAULT_PARAMS speedState).velocity
          = scaleVec3 speedState.velocity t) ∧
      lengthVec3 (clampSpeed DEFAULT_PARAMS speedState).velocity
        = clamp (lengthVec3 speedState.velocity)
            DEFAULT_PARAMS.minSpeed DEFAULT_PARAMS.maxSpeed ∧
      DEFAULT_PARAMS.minSpeed
        ≤ lengthVec3 (clampSpeed DEFAULT_PARAMS speedState).velocity ∧
      lengthVec3 (clampSpeed DEFAULT_PARAMS speedState).velocity
        ≤ DEFAULT_PARAMS.maxSpeed) ∧
    (lengthVec3 speedState.velocity = 0 →
      clampSpeed DEFAULT_PARAMS speedState = speedState)) :=
  ⟨by norm_num [DEFAULT_PARAMS], by norm_num [DEFAULT_PARAMS],
    clampSpeed_spec DEFAULT_PARAMS speedState
      (by norm_num [DEFAULT_PARAMS]) (by norm_num [DEFAULT_PARAMS])⟩

/-- With every control released, the orientation update reduces to the
clamp alone. -/
lemma applyControls_none (p : Params) (o : Orientation) (dt : ℝ) :
    applyControlsToOrientation p noControls o dt = clampOrientation o := by
  unfold applyControlsToOrientation noControls
  norm_num

/-- A running state, above ground, with the small nonzero velocity
`(0.6, 0.8, 0)` of norm 1 (below the default minSpeed 2). -/
noncomputable def lowSpeedState : PhysicsState :=
  ⟨⟨0, 10, 0⟩, ⟨0.6, 0.8, 0⟩, ⟨0, 0, 0⟩, true⟩

lemma length_lowSpeedVelocity : lengthVec3 lowSpeedState.velocity = 1 := by
  show Real.sqrt (0.6 * 0.6 + 0.8 * 0.8 + 0 * 0) = 1
  rw [show (0.6 * 0.6 + 0.8 * 0.8 + 0 * 0 : ℝ) = 1 by norm_num]
  exact Real.sqrt_one

lemma sqrt_four : Real.sqrt 4 = 2 := by
  rw [show (4 : ℝ) = 2 ^ 2 by norm_num]
  exact Real.sqrt_sq (by norm_num)

lemma length_clampedVelocity : lengthVec3 (⟨1.2, 1.6, 0⟩ : Vec3) = 2 := by
  show Real.sqrt (1.2 * 1.2 + 1.6 * 1.6 + 0 * 0) = 2
  rw [show (1.2 * 1.2 + 1.6 * 1.6 + 0 * 0 : ℝ) = 4 by norm_num]
  exact sqrt_four

/-- Evaluating the pre-collision part of the tick at `lowSpeedState` with
dt 0: the orientation and position are unchanged and the velocity is
rescaled up to norm `minSpeed = 2`. -/
lemma tick_lowSpeed :
    tick DEFAULT_PARAMS noControls lowSpeedState 0
      = { lowSpeedState with velocity := ⟨1.2, 1.6, 0⟩ } := by
  unfold tick
  rw [applyControls_none]
  rw [show clampOrientation lowSpeedState.orientation = lowSpeedState.orientation from by
        show clampOrientation ⟨0, 0, 0⟩ = ⟨0, 0, 0⟩
        exact clampOrientation_zero]
  dsimp only
  rw [integrate_zero_dt]
  have h2 : clampSpeed DEFAULT_PARAMS lowSpeedState
      = { lowSpeedState with velocity := ⟨1.2, 1.6, 0⟩ } := by
    rw [clampSpeed_of_pos DEFAULT_PARAMS lowSpeedState
      (by rw [length_lowSpeedVelocity]; norm_num)]
    rw [length_lowSpeedVelocity]
    have hc : clamp 1 DEFAULT_PARAMS.minSpeed DEFAULT_PARAMS.maxSpeed = 2 := by
      rw [show DEFAULT_PARAMS.minSpeed = 2 by norm_num [DEFAULT_PARAMS],
        show DEFAULT_PARAMS.maxSpeed = 80 by norm_num [DEFAULT_PARAMS]]
      exact clamp_of_ge 1 2 80 (by norm_num) (by norm_num)
    rw [hc]
    have hv : scaleVec3 lowSpeedState.velocity (2 / 1) = (⟨1.2, 1.6, 0⟩ : Vec3) := by
      show scaleVec3 ⟨0.6, 0.8, 0⟩ (2 / 1) = ⟨1.2, 1.6, 0⟩
      unfold scaleVec3
      norm_num
    rw [hv]
  exact h2

/-- Claim C1 amended: immediately after the speed-clamp step of a running
tick (before the ground-collision step), a nonzero velocity has norm
between minSpeed and maxSpeed; the subsequent ground-collision step can
push the norm back below minSpeed, see the counterexample. -/
theorem tick_speed_in_range (p : Params) (c : ControlSnapshot) (s : PhysicsState)
    (arg : DeltaArg) (hmin : 0 < p.minSpeed) (hmm : p.minSpeed ≤ p.maxSpeed)
    (hv : (tick p c s (effectiveDt arg)).velocity ≠ ⟨0, 0, 0⟩) :
    p.minSpeed ≤ lengthVec3 (tick p c s (effectiveDt arg)).velocity ∧
    lengthVec3 (tick p c s (effectiveDt arg)).velocity ≤ p.maxSpeed :=
  clampSpeed_range p _ hmin hmm hv

/-- Witness for the amended C1 at concrete inputs. -/
theorem tick_speed_in_range_witness :
    0 < DEFAULT_PARAMS.minSpeed ∧
    DEFAULT_PARAMS.minSpeed ≤ DEFAULT_PARAMS.maxSpeed ∧
    (tick DEFAULT_PARAMS noControls lowSpeedState (effectiveDt (.num 0))).velocity
      ≠ ⟨0, 0, 0⟩ ∧
    (DEFAULT_PARAMS.minSpeed
        ≤ lengthVec3
            (tick DEFAULT_PARAMS noControls lowSpeedState (effectiveDt (.num 0))).velocity ∧
      lengthVec3
          (tick DEFAULT_PARAMS noControls lowSpeedState (effectiveDt (.num 0))).velocity
        ≤ DEFAULT_PARAMS.maxSpeed) := by
  have hdt : effectiveDt (.num 0) = 0 := by
    unfold effectiveDt rawDt
    exact min_eq_left (by norm_num)
  have hv : (tick DEFAULT_PARAMS noControls lowSpeedState (effectiveDt (.num 0))).velocity
      ≠ ⟨0, 0, 0⟩ := by
    rw [hdt, tick_lowSpeed]
    show (⟨1.2, 1.6, 0⟩ : Vec3) ≠ ⟨0, 0, 0⟩
    norm_num [Vec3.mk.injEq]
  exact ⟨by norm_num [DEFAULT_PARAMS], by norm_num [DEFAULT_PARAMS], hv,
    tick_speed_in_range DEFAULT_PARAMS noControls lowSpeedState (.num 0)
      (by norm_num [DEFAULT_PARAMS]) (by norm_num [DEFAULT_PARAMS]) hv⟩

/-- Claim C10: update with dt = 0 while running is not the identity: from a
state with velocity of norm 1 (strictly between 0 and minSpeed) and all
controls false, update(0) rescales the velocity up to norm minSpeed even
though no time elapses. -/
theorem update_zero_dt_not_identity :
    0 < lengthVec3 lowSpeedState.velocity ∧
    lengthVec3 lowSpeedState.velocity < DEFAULT_PARAMS.minSpeed ∧
    update DEFAULT_PARAMS noControls lowSpeedState (.num 0)
      = { lowSpeedState with velocity := ⟨1.2, 1.6, 0⟩ } ∧
    lengthVec3 (update DEFAULT_PARAMS noControls lowSpeedState (.num 0)).velocity
      = DEFAULT_PARAMS.minSpeed ∧
    update DEFAULT_PARAMS noControls lowSpeedState (.num 0) ≠ lowSpeedState := by
  have hdt : effectiveDt (.num 0) = 0 := by
    unfold effectiveDt rawDt
    exact min_eq_left (by norm_num)
  have hu : update DEFAULT_PARAMS noControls lowSpeedState (.num 0)
      = { lowSpeedState with velocity := ⟨1.2, 1.6, 0⟩ } := by
    rw [update_of_running DEFAULT_PARAMS noControls lowSpeedState (.num 0) rfl,
      hdt, tick_lowSpeed]
    unfold handleGroundCollision
    rw [if_neg]
    show ¬((10 : ℝ) < DEFAULT_PARAMS.groundY)
    norm_num [DEFAULT_PARAMS]
  refine ⟨?_, ?_, hu, ?_, ?_⟩
  · rw [length_lowSpeedVelocity]
    norm_num
  · rw [length_lowSpeedVelocity]
    norm_num [DEFAULT_PARAMS]
  · rw [hu]
    show lengthVec3 (⟨1.2, 1.6, 0⟩ : Vec3) = DEFAULT_PARAMS.minSpeed
    rw [length_clampedVelocity]
    norm_num [DEFAULT_PARAMS]
  · rw [hu]
    intro heq
    have hx : (1.2 : ℝ) = 0.6 := congrArg (fun st => st.velocity.x) heq
    norm_num at hx

/-- A state satisfying every spec invariant: resting exactly on the ground
plane with zero velocity and level orientation. -/
noncomputable def groundedRest : PhysicsState :=
  ⟨⟨0, 0, 0⟩, ⟨0, 0, 0⟩, ⟨0, 0, 0⟩, true⟩

/-- The state after integrating gravity and thrust at `groundedRest` for
dt = 0.05. -/
noncomputable def fallState : PhysicsState :=
  ⟨⟨0, -0.024525, 0.03⟩, ⟨0, -0.4905, 0.6⟩, ⟨0, 0, 0⟩, true⟩

lemma computeForces_groundedRest :
    computeForces DEFAULT_PARAMS noControls groundedRest = ⟨0, -9.81, 12⟩ := by
  rw [computeForces_rest DEFAULT_PARAMS groundedRest rfl rfl]
  norm_num [DEFAULT_PARAMS, Vec3.mk.injEq]

lemma integrate_groundedRest :
    integrate groundedRest ⟨0, -9.81, 12⟩ 0.05 = fallState := by
  unfold integrate addVec3 scaleVec3 groundedRest fallState
  dsimp only
  norm_num [PhysicsState.mk.injEq, Vec3.mk.injEq, Orientation.mk.injEq]

lemma sqrt_fall_pos : 0 < Real.sqrt 0.60059025 :=
  Real.sqrt_pos.mpr (by norm_num)

lemma sqrt_fall_lt_two : Real.sqrt 0.60059025 < 2 := by
  rw [Real.sqrt_lt' (by norm_num : (0 : ℝ) < 2)]
  norm_num

lemma sqrt_fall_gt : (0.588 : ℝ) < Real.sqrt 0.60059025 := by
  rw [Real.lt_sqrt (by norm_num)]
  norm_num

lemma length_fallVelocity :
    lengthVec3 fallState.velocity = Real.sqrt 0.60059025 := by
  show Real.sqrt (0 * 0 + -0.4905 * -0.4905 + 0.6 * 0.6) = Real.sqrt 0.60059025
  norm_num

lemma clampSpeed_fallState :
    clampSpeed DEFAULT_PARAMS fallState
      = { fallState with
          velocity := scaleVec3 ⟨0, -0.4905, 0.6⟩ (2 / Real.sqrt 0.60059025) } := by
  rw [clampSpeed_of_pos DEFAULT_PARAMS fallState
    (by rw [length_fallVelocity]; exact sqrt_fall_pos)]
  rw [length_fallVelocity]
  have hcl : clamp (Real.sqrt 0.60059025) DEFAULT_PARAMS.minSpeed DEFAULT_PARAMS.maxSpeed
      = 2 := by
    rw [show DEFAULT_PARAMS.minSpeed = 2 by norm_num [DEFAULT_PARAMS],
      show DEFAULT_PARAMS.maxSpeed = 80 by norm_num [DEFAULT_PARAMS]]
    exact clamp_of_ge _ 2 80 sqrt_fall_lt_two.le
      (by linarith [sqrt_fall_lt_two])
  rw [hcl]
  rfl

lemma tick_groundedRest :
    tick DEFAULT_PARAMS noControls groundedRest 0.05
      = { fallState with
          velocity := scaleVec3 ⟨0, -0.4905, 0.6⟩ (2 / Real.sqrt 0.60059025) } := by
  unfold tick
  rw [applyControls_none]
  rw [show clampOrientation groundedRest.orientation = groundedRest.orientation from by
        show clampOrientation ⟨0, 0, 0⟩ = ⟨0, 0, 0⟩
        exact clampOrientation_zero]
  dsimp only
  rw [computeForces_groundedRest, integrate_groundedRest]
  exact clampSpeed_fallState

lemma collision_fallState :
    handleGroundCollision DEFAULT_PARAMS
      { fallState with
        velocity := scaleVec3 ⟨0, -0.4905, 0.6⟩ (2 / Real.sqrt 0.60059025) }
      = ⟨⟨0, 0, 0.03⟩,
          ⟨0, 0, 0.6 * (2 / Real.sqrt 0.60059025) * 0.98⟩, ⟨0, 0, 0⟩, true⟩ := by
  have hfrac : 0 < 2 / Real.sqrt 0.60059025 :=
    div_pos (by norm_num) sqrt_fall_pos
  unfold handleGroundCollision
  dsimp only [fallState, scaleVec3]
  rw [if_pos (by norm_num [DEFAULT_PARAMS] :
    (-0.024525 : ℝ) < DEFAULT_PARAMS.groundY)]
  rw [if_pos (by nlinarith : (-0.4905 : ℝ) * (2 / Real.sqrt 0.60059025) < 0)]
  norm_num [DEFAULT_PARAMS, PhysicsState.mk.injEq, Vec3.mk.injEq, Orientation.mk.injEq]

/-- Claim C1 counterexample: starting from a state that satisfies every
invariant (resting on the ground, zero velocity, level orientation,
running), one completed update tick at dt = 0.05 with all controls false
ends with a nonzero velocity whose norm is strictly below minSpeed: the
ground-collision step runs after the speed clamp and shrinks the velocity
again. -/
theorem update_speed_invariant_counterexample :
    (update DEFAULT_PARAMS noControls groundedRest (.num 0.05)).velocity ≠ ⟨0, 0, 0⟩ ∧
    lengthVec3 (update DEFAULT_PARAMS noControls groundedRest (.num 0.05)).velocity
      < DEFAULT_PARAMS.minSpeed := by
  have hdt : effectiveDt (.num 0.05) = 0.05 := by
    unfold effectiveDt rawDt
    exact min_self _
  have hz : (0 : ℝ) < 0.6 * (2 / Real.sqrt 0.60059025) * 0.98 := by
    have hfrac : 0 < 2 / Real.sqrt 0.60059025 :=
      div_pos (by norm_num) sqrt_fall_pos
    nlinarith
  have hupd : update DEFAULT_PARAMS noControls groundedRest (.num 0.05)
      = ⟨⟨0, 0, 0.03⟩,
          ⟨0, 0, 0.6 * (2 / Real.sqrt 0.60059025) * 0.98⟩, ⟨0, 0, 0⟩, true⟩ := by
    rw [update_of_running DEFAULT_PARAMS noControls groundedRest (.num 0.05) rfl,
      hdt, tick_groundedRest, collision_fallState]
  rw [hupd]
  constructor
  · show (⟨0, 0, 0.6 * (2 / Real.sqrt 0.60059025) * 0.98⟩ : Vec3) ≠ ⟨0, 0, 0⟩
    intro h
    exact hz.ne' (congrArg Vec3.z h)
  · show lengthVec3 ⟨0, 0, 0.6 * (2 / Real.sqrt 0.60059025) * 0.98⟩
      < DEFAULT_PARAMS.minSpeed
    have hlen : lengthVec3 (⟨0, 0, 0.6 * (2 / Real.sqrt 0.60059025) * 0.98⟩ : Vec3)
        = 0.6 * (2 / Real.sqrt 0.60059025) * 0.98 := by
      show Real.sqrt (0 * 0 + 0 * 0
          + 0.6 * (2 / Real.sqrt 0.60059025) * 0.98
            * (0.6 * (2 / Real.sqrt 0.60059025) * 0.98))
        = 0.6 * (2 / Real.sqrt 0.60059025) * 0.98
      rw [show (0 : ℝ) * 0 + 0 * 0
          + 0.6 * (2 / Real.sqrt 0.60059025) * 0.98
            * (0.6 * (2 / Real.sqrt 0.60059025) * 0.98)
          = (0.6 * (2 / Real.sqrt 0.60059025) * 0.98) ^ 2 by ring]
      exact Real.sqrt_sq hz.le
    rw [hlen, show DEFAULT_PARAMS.minSpeed = 2 by norm_num [DEFAULT_PARAMS]]
    have heq : 0.6 * (2 / Real.sqrt 0.60059025) * 0.98
        = 1.176 / Real.sqrt 0.60059025 := by
      ring
    rw [heq, div_lt_iff sqrt_fall_pos]
    nlinarith [sqrt_fall_gt]

end SpeedClaims

section OrientationClaims

/-- The closed-interval orientation bounds maintained by the tick:
pitch in `[−π/2 + 0.05, π/2 − 0.05]`, roll and yaw in `[−π, π]`. -/
def orientationInv (o : Orientation) : Prop :=
  (-(Real.pi / 2) + 0.05 ≤ o.pitch ∧ o.pitch ≤ Real.pi / 2 - 0.05) ∧
  (-Real.pi ≤ o.roll ∧ o.roll ≤ Real.pi) ∧
  (-Real.pi ≤ o.yaw ∧ o.yaw ≤ Real.pi)

lemma if_pm_bounds (b1 b2 : Bool) :
    -1 ≤ (if b1 then (-1 : ℝ) else 0) + (if b2 then (1 : ℝ) else 0) ∧
    (if b1 then (-1 : ℝ) else 0) + (if b2 then (1 : ℝ) else 0) ≤ 1 := by
  cases b1 <;> cases b2 <;> norm_num

lemma if_pm4_bounds (b1 b2 b3 b4 : Bool) :
    -2 ≤ (if b1 then (-1 : ℝ) else 0) + (if b2 then (1 : ℝ) else 0)
      + (if b3 then (-1 : ℝ) else 0) + (if b4 then (1 : ℝ) else 0) ∧
    (if b1 then (-1 : ℝ) else 0) + (if b2 then (1 : ℝ) else 0)
      + (if b3 then (-1 : ℝ) else 0) + (if b4 then (1 : ℝ) else 0) ≤ 2 := by
  cases b1 <;> cases b2 <;> cases b3 <;> cases b4 <;> norm_num

/-- A per-axis orientation increment `input * rate * dt` is bounded by 0.2
in magnitude when the input is within `[-2, 2]`, the rate within `[0, 2]`
and dt within `[0, 0.05]`. -/
lemma inc_bound (a r dt : ℝ) (ha1 : -2 ≤ a) (ha2 : a ≤ 2)
    (hr1 : 0 ≤ r) (hr2 : r ≤ 2) (h0 : 0 ≤ dt) (h1 : dt ≤ 0.05) :
    -0.2 ≤ a * r * dt ∧ a * r * dt ≤ 0.2 := by
  have hrd : 0 ≤ r * dt := mul_nonneg hr1 h0
  have hrd2 : r * dt ≤ 0.1 := by
    nlinarith [mul_nonneg (by linarith : (0 : ℝ) ≤ 2 - r) h0]
  constructor
  · nlinarith [mul_nonneg (by linarith : (0 : ℝ) ≤ a + 2) hrd]
  · nlinarith [mul_nonneg (by linarith : (0 : ℝ) ≤ 2 - a) hrd]

/-- One orientation update with the default rates and a nonnegative capped
dt re-establishes the closed-interval bounds. -/
lemma applyControls_inv (c : ControlSnapshot) (o : Orientation) (dt : ℝ)
    (h0 : 0 ≤ dt) (h1 : dt ≤ 0.05)
    (hroll1 : -Real.pi ≤ o.roll) (hroll2 : o.roll ≤ Real.pi)
    (hyaw1 : -Real.pi ≤ o.yaw) (hyaw2 : o.yaw ≤ Real.pi) :
    orientationInv (applyControlsToOrientation DEFAULT_PARAMS c o dt) := by
  have hp := pi_gt
  unfold applyControlsToOrientation clampOrientation orientationInv
  dsimp only
  refine ⟨clamp_mem _ _ _ (by linarith), ?_, ?_⟩
  · have hb := if_pm4_bounds c.left c.right c.rollLeft c.rollRight
    have hinc := inc_bound _ DEFAULT_PARAMS.rollRate dt hb.1 hb.2
      (by norm_num [DEFAULT_PARAMS]) (by norm_num [DEFAULT_PARAMS]) h0 h1
    exact wrapPi_mem _ (by linarith [hinc.1]) (by linarith [hinc.2])
  · have hb := if_pm_bounds c.yawLeft c.yawRight
    have hinc := inc_bound
      ((if c.yawLeft then (-1 : ℝ) else 0) + (if c.yawRight then (1 : ℝ) else 0))
      DEFAULT_PARAMS.yawRate dt
      (by linarith [hb.1]) (by linarith [hb.2])
      (by norm_num [DEFAULT_PARAMS]) (by norm_num [DEFAULT_PARAMS]) h0 h1
    exact wrapPi_mem _ (by linarith [hinc.1]) (by linarith [hinc.2])

lemma update_noop_of_stopped (p : Params) (c : ControlSnapshot)
    (s : PhysicsState) (arg : DeltaArg) (h : s.running = false) :
    update p c s arg = s := by
  unfold update
  rw [if_pos h]

/-- One whole update (running or stopped) preserves the closed-interval
orientation bounds whenever the effective dt is nonnegative. -/
lemma update_inv (c : ControlSnapshot) (s : PhysicsState) (arg : DeltaArg)
    (h : orientationInv s.orientation) (hdt : 0 ≤ effectiveDt arg) :
    orientationInv ((update DEFAULT_PARAMS c s arg).orientation) := by
  cases hr : s.running
  · rw [update_noop_of_stopped DEFAULT_PARAMS c s arg hr]
    exact h
  · rw [update_orientation DEFAULT_PARAMS c s arg hr]
    exact applyControls_inv c s.orientation (effectiveDt arg) hdt
      (min_le_right _ _) h.2.1.1 h.2.1.2 h.2.2.1 h.2.2.2

/-- Claim C4 amended: for every sequence of updates from the default state
whose effective dt values are nonnegative, after each completed tick pitch
lies in the closed interval `[−π/2 + 0.05, π/2 − 0.05]` and yaw and roll
lie in the closed interval `[−π, π]`. The endpoints are attained and a
negative numeric dt escapes the bounds, see the counterexample. -/
theorem runTicks_orientation_inv (ticks : List (ControlSnapshot × DeltaArg))
    (h : ∀ t ∈ ticks, 0 ≤ effectiveDt t.2) :
    orientationInv ((runTicks DEFAULT_PARAMS ticks DEFAULT_STATE).orientation) := by
  have hp := pi_gt
  have hstart : orientationInv DEFAULT_STATE.orientation := by
    unfold DEFAULT_STATE orientationInv
    dsimp only
    exact ⟨⟨by linarith, by linarith⟩, ⟨by linarith, by linarith⟩,
      by linarith, by linarith⟩
  suffices hgen : ∀ (l : List (ControlSnapshot × DeltaArg)) (s : PhysicsState),
      (∀ t ∈ l, 0 ≤ effectiveDt t.2) → orientationInv s.orientation →
      orientationInv ((runTicks DEFAULT_PARAMS l s).orientation) from
    hgen ticks DEFAULT_STATE h hstart
  intro l
  induction l with
  | nil =>
    intro s _ hs
    exact hs
  | cons t ts ih =>
    intro s hl hs
    unfold runTicks
    rw [List.foldl_cons]
    exact ih _ (fun x hx => hl x (List.mem_cons_of_mem t hx))
      (update_inv t.1 s t.2 hs (hl t (List.mem_cons_self t ts)))

/-- Witness for the amended C4 on a concrete one-tick sequence. -/
theorem runTicks_orientation_inv_witness :
    (∀ t ∈ [(noControls, DeltaArg.num 0.016)], 0 ≤ effectiveDt t.2) ∧
    orientationInv ((runTicks DEFAULT_PARAMS [(noControls, DeltaArg.num 0.016)]
        DEFAULT_STATE).orientation) := by
  have h : ∀ t ∈ [(noControls, DeltaArg.num 0.016)], 0 ≤ effectiveDt t.2 := by
    intro t ht
    simp only [List.mem_singleton] at ht
    subst ht
    unfold effectiveDt rawDt
    exact le_min (by norm_num) (by norm_num)
  exact ⟨h, runTicks_orientation_inv _ h⟩

lemma wrapPi_of_mem (a : ℝ) (h1 : -Real.pi ≤ a) (h2 : a ≤ Real.pi) :
    wrapPi a = a := by
  unfold wrapPi
  rw [if_neg (not_lt.mpr h2), if_neg (not_lt.mpr h1)]

lemma rollEscape :
    Real.pi
      < (update DEFAULT_PARAMS leftControls DEFAULT_STATE (.num (-10))).orientation.roll := by
  have hdt : effectiveDt (.num (-10)) = -10 := by
    unfold effectiveDt rawDt
    exact min_eq_left (by norm_num)
  rw [update_orientation DEFAULT_PARAMS leftControls DEFAULT_STATE (.num (-10)) rfl, hdt]
  unfold applyControlsToOrientation leftControls clampOrientation DEFAULT_STATE
  dsimp only
  norm_num [DEFAULT_PARAMS]
  have hwrap : wrapPi 18 = 18 - 2 * Real.pi := by
    unfold wrapPi
    rw [if_pos (by linarith [pi_lt] : (18 : ℝ) > Real.pi)]
    rw [if_neg (not_lt.mpr (by linarith [pi_lt]))]
  rw [hwrap]
  linarith [pi_lt]

lemma pitch_step (s : PhysicsState) (x : ℝ) (hrun : s.running = true)
    (ho : s.orientation = ⟨x, 0, 0⟩) :
    (update DEFAULT_PARAMS backControls s (.num 0.05)).orientation
      = ⟨clamp (x + 0.06) (-(Real.pi / 2) + 0.05) (Real.pi / 2 - 0.05), 0, 0⟩ := by
  have hdt : effectiveDt (.num 0.05) = 0.05 := by
    unfold effectiveDt rawDt
    exact min_self _
  rw [update_orientation DEFAULT_PARAMS backControls s (.num 0.05) hrun, hdt, ho]
  unfold applyControlsToOrientation backControls clampOrientation
  dsimp only
  norm_num [DEFAULT_PARAMS, wrapPi_zero]

lemma pitch_iter : ∀ n : ℕ, n ≤ 25 →
    (runTicks DEFAULT_PARAMS (List.replicate n (backControls, DeltaArg.num 0.05))
        DEFAULT_STATE).orientation = ⟨0.06 * n, 0, 0⟩ ∧
    (runTicks DEFAULT_PARAMS (List.replicate n (backControls, DeltaArg.num 0.05))
        DEFAULT_STATE).running = true := by
  intro n
  induction n with
  | zero =>
    intro _
    constructor
    · show DEFAULT_STATE.orientation = ⟨0.06 * ((0 : ℕ) : ℝ), 0, 0⟩
      norm_num [DEFAULT_STATE]
    · rfl
  | succ k ih =>
    intro hk
    have hp := pi_gt
    obtain ⟨iho, ihr⟩ := ih (Nat.le_of_succ_le hk)
    have hkr : ((k : ℝ)) ≤ 24 := by
      exact_mod_cast Nat.lt_succ_iff.mp (Nat.lt_of_succ_le hk)
    rw [List.replicate_succ']
    unfold runTicks
    rw [List.foldl_append, List.foldl_cons, List.foldl_nil]
    unfold runTicks at iho ihr
    constructor
    · rw [pitch_step _ (0.06 * k) ihr iho]
      have hcl : clamp (0.06 * (k : ℝ) + 0.06) (-(Real.pi / 2) + 0.05)
          (Real.pi / 2 - 0.05) = 0.06 * (k : ℝ) + 0.06 := by
        have hk0 : (0 : ℝ) ≤ (k : ℝ) := Nat.cast_nonneg k
        exact clamp_of_mem _ _ _ (by linarith) (by linarith)
      rw [hcl]
      have : ((k + 1 : ℕ) : ℝ) = (k : ℝ) + 1 := by push_cast; ring
      rw [this]
      have : (0.06 : ℝ) * ((k : ℝ) + 1) = 0.06 * (k : ℝ) + 0.06 := by ring
      rw [this]
    · rw [update_running]
      exact ihr

lemma pitch_endpoint :
    (runTicks DEFAULT_PARAMS (List.replicate 26 (backControls, DeltaArg.num 0.05))
        DEFAULT_STATE).orientation.pitch = Real.pi / 2 - 0.05 := by
  have hp := pi_gt
  have hq := pi_lt
  obtain ⟨iho, ihr⟩ := pitch_iter 25 (le_refl 25)
  rw [show (26 : ℕ) = 25 + 1 by norm_num, List.replicate_succ']
  unfold runTicks
  rw [List.foldl_append, List.foldl_cons, List.foldl_nil]
  unfold runTicks at iho ihr
  rw [pitch_step _ (0.06 * (25 : ℕ)) ihr iho]
  dsimp only
  rw [show (0.06 * ((25 : ℕ) : ℝ) + 0.06 : ℝ) = 1.56 by norm_num]
  exact clamp_of_le _ _ _ (by linarith) (by linarith)

lemma roll_step (s : PhysicsState) (y : ℝ) (hrun : s.running = true)
    (ho : s.orientation = ⟨0, y, 0⟩) :
    (update DEFAULT_PARAMS leftRollControls s (.num (Real.pi / 64.8))).orientation
      = ⟨0, wrapPi (y - Real.pi / 18), 0⟩ := by
  have hp := pi_gt
  have hq := pi_lt
  have hdt : effectiveDt (.num (Real.pi / 64.8)) = Real.pi / 64.8 := by
    rw [show effectiveDt (.num (Real.pi / 64.8)) = min (Real.pi / 64.8) 0.05 from rfl]
    exact min_eq_left
      ((div_le_iff (by norm_num : (0 : ℝ) < 64.8)).mpr (by linarith))
  rw [update_orientation DEFAULT_PARAMS leftRollControls s
    (.num (Real.pi / 64.8)) hrun, hdt, ho]
  unfold applyControlsToOrientation leftRollControls clampOrientation
  dsimp only
  simp only [Orientation.mk.injEq]
  refine ⟨?_, ?_, ?_⟩
  · norm_num [DEFAULT_PARAMS]
    exact clamp_of_mem _ _ _ (by linarith) (by linarith)
  · congr 1
    norm_num [DEFAULT_PARAMS]
    ring_nf
  · norm_num [DEFAULT_PARAMS, wrapPi_zero]

lemma roll_iter : ∀ n : ℕ, n ≤ 18 →
    (runTicks DEFAULT_PARAMS
        (List.replicate n (leftRollControls, DeltaArg.num (Real.pi / 64.8)))
        DEFAULT_STATE).orientation = ⟨0, -((n : ℝ) * Real.pi) / 18, 0⟩ ∧
    (runTicks DEFAULT_PARAMS
        (List.replicate n (leftRollControls, DeltaArg.num (Real.pi / 64.8)))
        DEFAULT_STATE).running = true := by
  intro n
  induction n with
  | zero =>
    intro _
    constructor
    · show DEFAULT_STATE.orientation = ⟨0, -(((0 : ℕ) : ℝ) * Real.pi) / 18, 0⟩
      norm_num [DEFAULT_STATE]
    · rfl
  | succ k ih =>
    intro hk
    have hp := pi_gt
    obtain ⟨iho, ihr⟩ := ih (Nat.le_of_succ_le hk)
    have hkr : ((k : ℝ)) ≤ 17 := by
      exact_mod_cast Nat.lt_succ_iff.mp (Nat.lt_of_succ_le hk)
    have hk0 : (0 : ℝ) ≤ (k : ℝ) := Nat.cast_nonneg k
    rw [List.replicate_succ']
    unfold runTicks
    rw [List.foldl_append, List.foldl_cons, List.foldl_nil]
    unfold runTicks at iho ihr
    constructor
    · rw [roll_step _ (-((k : ℝ) * Real.pi) / 18) ihr iho]
      have harg : -((k : ℝ) * Real.pi) / 18 - Real.pi / 18
          = -(((k : ℝ) + 1) * Real.pi) / 18 := by ring
      rw [harg]
      have hw : wrapPi (-(((k : ℝ) + 1) * Real.pi) / 18)
          = -(((k : ℝ) + 1) * Real.pi) / 18 := by
        apply wrapPi_of_mem
        · nlinarith
        · nlinarith
      rw [hw]
      have : ((k + 1 : ℕ) : ℝ) = (k : ℝ) + 1 := by push_cast; ring
      rw [this]
    · rw [update_running]
      exact ihr

lemma roll_endpoint :
    (runTicks DEFAULT_PARAMS
        (List.replicate 18 (leftRollControls, DeltaArg.num (Real.pi / 64.8)))
        DEFAULT_STATE).orientation.roll = -Real.pi := by
  obtain ⟨iho, _⟩ := roll_iter 18 (le_refl 18)
  rw [iho]
  dsimp only
  push_cast
  ring

/-- Claim C4 counterexample, in three parts from the default state: a
single update with the numeric dt `-10` and roll-left held drives roll
above `π` (outside `(−π, π]`); 26 updates at dt 0.05 with nose-up held
drive pitch to exactly `π/2 − 0.05`, which is not strictly inside the open
interval; and 18 updates at dt `π/64.8` with both roll-left inputs held
drive roll to exactly `−π`, which is outside `(−π, π]`. -/
theorem orientation_claim_counterexample :
    Real.pi
      < (update DEFAULT_PARAMS leftControls DEFAULT_STATE (.num (-10))).orientation.roll ∧
    ¬((runTicks DEFAULT_PARAMS (List.replicate 26 (backControls, DeltaArg.num 0.05))
        DEFAULT_STATE).orientation.pitch < Real.pi / 2 - 0.05) ∧
    ¬(-Real.pi < (runTicks DEFAULT_PARAMS
        (List.replicate 18 (leftRollControls, DeltaArg.num (Real.pi / 64.8)))
        DEFAULT_STATE).orientation.roll) := by
  refine ⟨rollEscape, ?_, ?_⟩
  · rw [pitch_endpoint]
    exact lt_irrefl _
  · rw [roll_endpoint]
    exact lt_irrefl _

end OrientationClaims

end PlanePhysics
